import Mathlib

/-!
Verification development for the dynamic relationship-attribute subsystem
(`lib/sqlalchemy/orm/dynamic.py`): the `CollectionHistory` pending-change
tracker, the `DynamicAttributeImpl` attribute controller, the
`AppenderQuery` generative lazy query, and `DynaLoader` registration.

Mapped objects are compared by object identity throughout; we model an
object reference as `Option Nat` where `none` stands for the Python value
`None` and `some n` is a live object with identity token `n`.
-/

/-- An object reference: `none` is Python `None`, `some n` an object with
identity token `n`.  Equality of `V` models Python `is` (object identity). -/
abbrev V := Option Nat

/-- Modelled from the spec: `util.OrderedIdentitySet` (the `util` package is
outside `src/`).  Per the spec it is an ordered set of entity references,
identity-deduplicated, insertion order preserved; difference / intersection /
union are taken by object identity and preserve the left operand's order.
We represent one as a duplicate-free `List V`. -/
def OIdSet.add (s : List V) (v : V) : List V :=
  if v ∈ s then s else s ++ [v]

/-- Identity-set removal: drop the member entirely. -/
def OIdSet.remove (s : List V) (v : V) : List V :=
  s.filter (fun w => decide (w ≠ v))

/-- Identity-set difference, keeping the left operand's order. -/
def OIdSet.difference (s t : List V) : List V :=
  s.filter (fun w => decide (w ∉ t))

/-- Identity-set intersection, keeping the left operand's order. -/
def OIdSet.intersection (s t : List V) : List V :=
  s.filter (fun w => decide (w ∈ t))

/-- Identity-set union: left operand, then right members not already present. -/
def OIdSet.union (s t : List V) : List V :=
  s ++ t.filter (fun w => decide (w ∉ s))

/-- Build an ordered identity set from an iterable, keeping the first
occurrence of each member (the `OrderedIdentitySet(iterable)` /
`IdentitySet(iterable)` constructors). -/
def OIdSet.fromList (l : List V) : List V :=
  l.foldl OIdSet.add []

/-- Source `attributes.History`: the reconciled three-way view `(added, unchanged,
deleted)` returned by `CollectionHistory.as_history`. -/
structure History where
  added : List V
  unchanged : List V
  deleted : List V
deriving DecidableEq, Repr

/-- Source `CollectionHistory` (dynamic.py): the per-attribute, per-instance
pending-change tracker ("ChangeSet" in the spec). -/
structure CollectionHistory where
  added_items : List V
  deleted_items : List V
  unchanged_items : List V
  _reconcile_collection : Bool
deriving DecidableEq, Repr

/-- Source `CollectionHistory(attr, state)` with no `apply_to`: all three sets
empty, not reconciling. -/
def CollectionHistory.empty : CollectionHistory :=
  { added_items := [], deleted_items := [], unchanged_items := [],
    _reconcile_collection := false }

/-- Source `CollectionHistory(attr, state, apply_to=c)`: snapshot the persisted
collection (`AppenderQuery(attr, state).autoflush(False)` iterated, here the
`snapshot` argument) into `unchanged_items`, share `added_items` /
`deleted_items` with `apply_to`, and mark the result as reconciling. -/
def CollectionHistory.applyTo (snapshot : List V) (c : CollectionHistory) :
    CollectionHistory :=
  { added_items := c.added_items, deleted_items := c.deleted_items,
    unchanged_items := OIdSet.fromList snapshot, _reconcile_collection := true }

/-- Source `CollectionHistory.as_history`: when reconciling, diff the pending sets
against the snapshot; otherwise return the raw sets. -/
def CollectionHistory.as_history (c : CollectionHistory) : History :=
  if c._reconcile_collection then
    let deleted := OIdSet.intersection c.deleted_items c.unchanged_items
    { added := OIdSet.difference c.added_items c.unchanged_items,
      unchanged := OIdSet.difference c.unchanged_items deleted,
      deleted := deleted }
  else
    { added := c.added_items, unchanged := c.unchanged_items,
      deleted := c.deleted_items }

/-- Source `CollectionHistory.indexed`. -/
def CollectionHistory.indexed (c : CollectionHistory) (index : Nat) : Option V :=
  c.added_items[index]?

/-- Source `CollectionHistory.add_added`. -/
def CollectionHistory.add_added (c : CollectionHistory) (value : V) :
    CollectionHistory :=
  { c with added_items := OIdSet.add c.added_items value }

/-- Source `CollectionHistory.add_removed`: undo a pending add if present, else
record a pending delete. -/
def CollectionHistory.add_removed (c : CollectionHistory) (value : V) :
    CollectionHistory :=
  if value ∈ c.added_items then
    { c with added_items := OIdSet.remove c.added_items value }
  else
    { c with deleted_items := OIdSet.add c.deleted_items value }

/-- Source `CollectionHistory.added_plus_unchanged`. -/
def CollectionHistory.added_plus_unchanged (c : CollectionHistory) : List V :=
  OIdSet.union c.added_items c.unchanged_items

/-- Source `CollectionHistory.all_items`. -/
def CollectionHistory.all_items (c : CollectionHistory) : List V :=
  OIdSet.union (OIdSet.union c.added_items c.unchanged_items) c.deleted_items

/-- Modelled from the spec: the passive/loading flag (the bit constants live
in `orm/attributes.py`, outside `src/`).  `dynamic.py` only ever tests the
`SQL_OK` bit (may the read run a query) and the `INIT_OK` bit (may the read
initialize/reconcile state), so we model the flag as that pair of bits. -/
structure Passive where
  sql_ok : Bool
  init_ok : Bool
deriving DecidableEq, Repr

/-- Source `attributes.PASSIVE_OFF`: everything allowed. -/
def PASSIVE_OFF : Passive := { sql_ok := true, init_ok := true }

/-- Source `attributes.PASSIVE_NO_INITIALIZE` (spelled `PASSIVE_NO_INIT` here): no
SQL and no initialization allowed. -/
def PASSIVE_NO_INIT : Passive := { sql_ok := false, init_ok := false }

/-- The `initiator` argument of the mutation operations, as far as the
re-entrancy guards `initiator is not self` / `initiator.parent_token is
self.parent_token` observe it: the impl itself, some other token, or the
Python default `None`. -/
inductive Initiator
  | selfI
  | other
  | noneI
deriving DecidableEq, Repr

/-- Errors raised by this core: `orm_exc.DetachedInstanceError` from `_iter`
and `_execute`, and the `TypeError` that `list(None)` raises inside `set`. -/
inductive DynError
  | detachedInstance
  | typeError
deriving DecidableEq, Repr

/-- One dispatched collection event: an append or remove listener invocation
for a value (`self.dispatch.append` / `self.dispatch.remove` in the source). -/
inductive Event
  | append (value : V)
  | remove (value : V)
deriving DecidableEq, Repr

/-- A WHERE/ORDER BY/JOIN criterion token: either the parent join predicate
`prop._with_parent(instance)` for a given parent instance, or an opaque
user-supplied criterion. -/
inductive Crit
  | withParent (inst : Nat)
  | user (n : Nat)
deriving DecidableEq, Repr

/-- Modelled from the spec: the generative query expression held by an
`AppenderQuery` (`Query` of `orm/query.py` is outside `src/`).  Per the spec
it accumulates filter / order / join criteria and limit/offset clauses. -/
structure Stmt where
  from_obj : List Nat
  whereCriteria : List Crit
  orderCriteria : List Crit
  joinTargets : List Crit
  outerjoinTargets : List Crit
  filterByCriteria : List Nat
  _limit_clause : Option Int
  _offset_clause : Option Int
deriving DecidableEq, Repr

/-- Source `Query([target_mapper], None)`: the initial statement selecting the
target mapper with no criteria. -/
def Stmt.initial (target_mapper : Nat) : Stmt :=
  { from_obj := [target_mapper], whereCriteria := [], orderCriteria := [],
    joinTargets := [], outerjoinTargets := [], filterByCriteria := [],
    _limit_clause := none, _offset_clause := none }

/-- Source `Query.where`: append criteria. -/
def Stmt.whereStmt (s : Stmt) (criteria : List Crit) : Stmt :=
  { s with whereCriteria := s.whereCriteria ++ criteria }

/-- Source `Query.order_by`: append ordering criteria. -/
def Stmt.order_by (s : Stmt) (criteria : List Crit) : Stmt :=
  { s with orderCriteria := s.orderCriteria ++ criteria }

/-- Source `Query.join`. -/
def Stmt.join (s : Stmt) (target : Crit) : Stmt :=
  { s with joinTargets := s.joinTargets ++ [target] }

/-- Source `Query.outerjoin`. -/
def Stmt.outerjoin (s : Stmt) (target : Crit) : Stmt :=
  { s with outerjoinTargets := s.outerjoinTargets ++ [target] }

/-- Source `Query.filter_by`. -/
def Stmt.filter_by (s : Stmt) (kwargs : List Nat) : Stmt :=
  { s with filterByCriteria := s.filterByCriteria ++ kwargs }

/-- Source `Query.limit`. -/
def Stmt.limit (s : Stmt) (l : Option Int) : Stmt :=
  { s with _limit_clause := l }

/-- Source `Query.offset`. -/
def Stmt.offset (s : Stmt) (o : Option Int) : Stmt :=
  { s with _offset_clause := o }

/-- Source `Query.select_from`: replace the FROM list. -/
def Stmt.select_from (s : Stmt) (fr : List Nat) : Stmt :=
  { s with from_obj := fr }

/-- Source `DynamicAttributeImpl`: the per-(class, relationship-attribute)
controller.  We keep the fields `dynamic.py` reads: the target mapper, the
configured ordering, and `prop.secondary` (`some t` when an association
table is present).  The dispatch listener registry and `trackparent`
machinery live in the out-of-scope attribute/event layer; dispatched events
are recorded in an explicit event log instead. -/
structure DynamicAttributeImpl where
  target_mapper : Nat
  order_by : List Crit
  secondary : Option Nat
deriving DecidableEq, Repr

/-- The slice of a parent `InstanceState` that `dynamic.py` observes
(`orm/state.py` is outside `src/`; fields per the spec's external-interface
list).  `committed` is the pending-change map `state.committed_state`
restricted to the one attribute under study (`none` = no entry for the
key); `session` is `object_session(instance)`; `persisted_rows` is the row
sequence the session returns for this parent's collection statement;
`obj` is the parent instance's identity token. -/
structure ScState where
  committed : Option CollectionHistory
  has_identity : Bool
  session : Option Nat
  persisted_rows : List V
  obj : Nat
deriving DecidableEq, Repr

/-- Source `state.detached`: has an identity but no owning session. -/
def ScState.detached (st : ScState) : Bool :=
  st.has_identity && st.session.isNone

/-- Source `AppenderQuery`: the lazy collection query bound to one parent instance
and one attribute impl.  Fields are `_statement`, `_autoflush`, the bound
parent `instance` (its identity token) and `attr`. -/
structure AppenderQuery where
  _statement : Stmt
  _autoflush : Bool
  instance_obj : Nat
  attr : DynamicAttributeImpl
deriving DecidableEq, Repr

/-- Source `AppenderQuery.__init__(attr, state)`: build the base statement selecting
the target mapper, put the secondary table into the FROM list when the
relationship has one, add the `prop._with_parent(instance)` criterion, and
apply the configured ordering. -/
def AppenderQuery.init (attr : DynamicAttributeImpl) (st : ScState) :
    AppenderQuery :=
  let s := Stmt.initial attr.target_mapper
  let s := match attr.secondary with
    | some sec => s.select_from [attr.target_mapper, sec]
    | none => s
  let s := s.whereStmt [Crit.withParent st.obj]
  let s := if attr.order_by.isEmpty then s else s.order_by attr.order_by
  { _statement := s, _autoflush := true, instance_obj := st.obj, attr := attr }

/-- The `AppenderQuery.session` property as `_iter` observes it: flush side
effects live in the external session; the returned value is `None` when the
parent has no identity, and `object_session(instance)` otherwise. -/
def AppenderQuery.sessionProp (st : ScState) : Option Nat :=
  if !st.has_identity then none else st.session

/-- Source `DynamicAttributeImpl._modified_event`: ensure the pending-change map
holds a `CollectionHistory` for this attribute, creating and storing one on
first mutation, and return the stored history.  (The `state._modified_event`
bookkeeping call and the `dict_[self.key] = True` fixture hack touch only
external state.) -/
def DynamicAttributeImpl._modified_event (st : ScState) :
    CollectionHistory × ScState :=
  match st.committed with
  | some c => (c, st)
  | none =>
      (CollectionHistory.empty,
        { st with committed := some CollectionHistory.empty })

/-- Source `DynamicAttributeImpl._get_collection_history`: read the stored history
(or a fresh empty one) and, when the parent is persisted and the passive
flag allows initialization, wrap it in a reconciling history snapshotting
the persisted collection.  Returns the (unmodified) state to make explicit
that nothing is stored back. -/
def DynamicAttributeImpl._get_collection_history (st : ScState)
    (passive : Passive) : CollectionHistory × ScState :=
  let c := match st.committed with
    | some c => c
    | none => CollectionHistory.empty
  if st.has_identity && passive.init_ok then
    (CollectionHistory.applyTo st.persisted_rows c, st)
  else
    (c, st)

/-- Source `DynamicAttributeImpl.fire_append_event`: record the value into the
stored history and dispatch one append listener event.  (When the caller
passes an explicit `collection_history` it is the same object
`_modified_event` stores, so threading through the state is equivalent.) -/
def DynamicAttributeImpl.fire_append_event (st : ScState) (value : V) :
    ScState × List Event :=
  let r := DynamicAttributeImpl._modified_event st
  ({ r.2 with committed := some (r.1.add_added value) },
    [Event.append value])

/-- Source `DynamicAttributeImpl.fire_remove_event`: record the removal into the
stored history and dispatch one remove listener event. -/
def DynamicAttributeImpl.fire_remove_event (st : ScState) (value : V) :
    ScState × List Event :=
  let r := DynamicAttributeImpl._modified_event st
  ({ r.2 with committed := some (r.1.add_removed value) },
    [Event.remove value])

/-- Source `DynamicAttributeImpl.append`: guarded by `initiator is not self`. -/
def DynamicAttributeImpl.append (st : ScState) (value : V)
    (initiator : Initiator) : ScState × List Event :=
  if initiator = Initiator.selfI then (st, [])
  else DynamicAttributeImpl.fire_append_event st value

/-- Source `DynamicAttributeImpl.remove`: guarded by `initiator is not self`. -/
def DynamicAttributeImpl.remove (st : ScState) (value : V)
    (initiator : Initiator) : ScState × List Event :=
  if initiator = Initiator.selfI then (st, [])
  else DynamicAttributeImpl.fire_remove_event st value

/-- Source `DynamicAttributeImpl.pop`: delegates to `remove` unconditionally. -/
def DynamicAttributeImpl.pop (st : ScState) (value : V)
    (initiator : Initiator) : ScState × List Event :=
  DynamicAttributeImpl.remove st value initiator

/-- Result of `DynamicAttributeImpl.get`: either the raw pending-adds list
(no-SQL path) or a freshly built `AppenderQuery`. -/
inductive GetResult
  | collection (items : List V)
  | query (q : AppenderQuery)
deriving DecidableEq, Repr

/-- Source `DynamicAttributeImpl.get`: no-SQL passive flags read only the pending
added items; otherwise a fresh `AppenderQuery` is built.  The state is
returned to make explicit that a read stores nothing. -/
def DynamicAttributeImpl.get (impl : DynamicAttributeImpl) (st : ScState)
    (passive : Passive) : GetResult × ScState :=
  if !passive.sql_ok then
    let r := DynamicAttributeImpl._get_collection_history st PASSIVE_NO_INIT
    (GetResult.collection r.1.added_items, r.2)
  else
    (GetResult.query (AppenderQuery.init impl st), st)

/-- Source `DynamicAttributeImpl.get_collection`: no-SQL passive flags read only the
pending added items; otherwise the materialized `added_plus_unchanged`. -/
def DynamicAttributeImpl.get_collection (st : ScState) (passive : Passive) :
    List V :=
  let r := DynamicAttributeImpl._get_collection_history st passive
  if !passive.sql_ok then r.1.added_items else r.1.added_plus_unchanged

/-- Source `DynamicAttributeImpl.get_history`: the reconciled three-way view. -/
def DynamicAttributeImpl.get_history (st : ScState) (passive : Passive) :
    History :=
  (DynamicAttributeImpl._get_collection_history st passive).1.as_history

/-- Source `AppenderQuery._iter`: with no usable session, a detached parent raises
`DetachedInstanceError` and a transient parent serves the pending added
items; otherwise the statement is executed against the session. -/
def AppenderQuery._iter (st : ScState) : Except DynError (List V) :=
  match AppenderQuery.sessionProp st with
  | none =>
      if st.detached then Except.error DynError.detachedInstance
      else
        Except.ok
          (DynamicAttributeImpl._get_collection_history st
              PASSIVE_NO_INIT).1.added_items
  | some _ => Except.ok st.persisted_rows

/-- Source `AppenderQuery.all`: materialize `_iter`. -/
def AppenderQuery.all (st : ScState) : Except DynError (List V) :=
  AppenderQuery._iter st

/-- Source `AppenderQuery.count` on the no-session path: the number of pending
added items. -/
def AppenderQuery.countNoSession (st : ScState) : Nat :=
  (DynamicAttributeImpl._get_collection_history st PASSIVE_NO_INIT).1.added_items.length

/-- The body of `set`'s append loop: fire an append event for the member
when it is one of the computed additions. -/
def DynamicAttributeImpl.setAppendStep (additions : List V)
    (acc : ScState × List Event) (m : V) : ScState × List Event :=
  if m ∈ additions then
    ((DynamicAttributeImpl.fire_append_event acc.1 m).1,
      acc.2 ++ (DynamicAttributeImpl.fire_append_event acc.1 m).2)
  else acc

/-- The body of `set`'s removal loop: fire a remove event for the member. -/
def DynamicAttributeImpl.setRemoveStep (acc : ScState × List Event) (m : V) :
    ScState × List Event :=
  ((DynamicAttributeImpl.fire_remove_event acc.1 m).1,
    acc.2 ++ (DynamicAttributeImpl.fire_remove_event acc.1 m).2)

/-- Source `DynamicAttributeImpl.set`: bulk replace.  After the initiator and
`pop`/`None` short-circuits, compute the old membership (for a persisted
parent: the iterated `self.get(state, dict_)` query, i.e. the persisted
rows, as an identity set, unioned with the pending adds; for a transient
parent: just the pending adds), diff it against `new_values`, then fire one
append event per `new_values` entry that is an addition, followed by one
remove event per removal. -/
def DynamicAttributeImpl.set (st : ScState) (value : Option (List V))
    (initiator : Initiator) (pop : Bool) :
    Except DynError (ScState × List Event) :=
  if initiator = Initiator.selfI then Except.ok (st, [])
  else if pop && value.isNone then Except.ok (st, [])
  else
    match value with
    | none => Except.error DynError.typeError
    | some new_values =>
        match
          (if st.has_identity then
            (AppenderQuery._iter st).map OIdSet.fromList
          else Except.ok []) with
        | Except.error e => Except.error e
        | Except.ok old0 =>
            let r := DynamicAttributeImpl._modified_event st
            let old_collection :=
              if !st.has_identity then r.1.added_items
              else OIdSet.union old0 r.1.added_items
            let constants := OIdSet.intersection old_collection new_values
            let additions :=
              OIdSet.difference (OIdSet.fromList new_values) constants
            let removals := OIdSet.difference old_collection constants
            let p1 := new_values.foldl
              (DynamicAttributeImpl.setAppendStep additions) (r.2, [])
            let p2 := removals.foldl
              DynamicAttributeImpl.setRemoveStep (p1.1, [])
            Except.ok (p2.1, p1.2 ++ p2.2)

/-- Modelled from the spec: `sql.util._make_slice` (outside `src/`) turns a
`slice(start, stop)` into standard limit/offset clauses: limit
`stop - start`, offset shifted by any existing offset. -/
def _make_slice (limitClause offsetClause : Option Int) (start stop : Int) :
    Option Int × Option Int :=
  let _ := limitClause
  (some (stop - start), some (offsetClause.getD 0 + start))

/-- Source `AppenderQuery.where` (method body applied to the generative copy). -/
def AppenderQuery.whereQ (q : AppenderQuery) (criteria : List Crit) :
    AppenderQuery :=
  { q with _statement := q._statement.whereStmt criteria }

/-- Source `AppenderQuery.filter`: a synonym for `where`. -/
def AppenderQuery.filter (q : AppenderQuery) (criteria : List Crit) :
    AppenderQuery :=
  q.whereQ criteria

/-- Source `AppenderQuery.order_by`. -/
def AppenderQuery.order_by (q : AppenderQuery) (criteria : List Crit) :
    AppenderQuery :=
  { q with _statement := q._statement.order_by criteria }

/-- Source `AppenderQuery.filter_by`. -/
def AppenderQuery.filter_by (q : AppenderQuery) (kwargs : List Nat) :
    AppenderQuery :=
  { q with _statement := q._statement.filter_by kwargs }

/-- Source `AppenderQuery.join`. -/
def AppenderQuery.join (q : AppenderQuery) (target : Crit) : AppenderQuery :=
  { q with _statement := q._statement.join target }

/-- Source `AppenderQuery.outerjoin`. -/
def AppenderQuery.outerjoin (q : AppenderQuery) (target : Crit) :
    AppenderQuery :=
  { q with _statement := q._statement.outerjoin target }

/-- Source `AppenderQuery.limit`. -/
def AppenderQuery.limit (q : AppenderQuery) (l : Int) : AppenderQuery :=
  { q with _statement := q._statement.limit (some l) }

/-- Source `AppenderQuery.offset`. -/
def AppenderQuery.offset (q : AppenderQuery) (o : Int) : AppenderQuery :=
  { q with _statement := q._statement.offset (some o) }

/-- Source `AppenderQuery.slice`. -/
def AppenderQuery.slice (q : AppenderQuery) (start stop : Int) :
    AppenderQuery :=
  let lo := _make_slice q._statement._limit_clause q._statement._offset_clause
    start stop
  { q with _statement := (q._statement.limit lo.1).offset lo.2 }

/-- Source `AppenderQuery.autoflush`. -/
def AppenderQuery.autoflush (q : AppenderQuery) (setting : Bool) :
    AppenderQuery :=
  { q with _autoflush := setting }

/-- One generative builder invocation, with its arguments. -/
inductive BuilderOp
  | whereOp (criteria : List Crit)
  | filterOp (criteria : List Crit)
  | filterByOp (kwargs : List Nat)
  | orderByOp (criteria : List Crit)
  | joinOp (target : Crit)
  | outerjoinOp (target : Crit)
  | limitOp (l : Int)
  | offsetOp (o : Int)
  | sliceOp (start stop : Int)
  | autoflushOp (setting : Bool)
deriving DecidableEq, Repr

/-- The method body a given builder op applies to the generative copy. -/
def builderBody : BuilderOp → AppenderQuery → AppenderQuery
  | BuilderOp.whereOp cs => fun q => q.whereQ cs
  | BuilderOp.filterOp cs => fun q => q.filter cs
  | BuilderOp.filterByOp ks => fun q => q.filter_by ks
  | BuilderOp.orderByOp cs => fun q => q.order_by cs
  | BuilderOp.joinOp t => fun q => q.join t
  | BuilderOp.outerjoinOp t => fun q => q.outerjoin t
  | BuilderOp.limitOp l => fun q => q.limit l
  | BuilderOp.offsetOp o => fun q => q.offset o
  | BuilderOp.sliceOp a b => fun q => q.slice a b
  | BuilderOp.autoflushOp b => fun q => q.autoflush b

/-- Modelled from the spec: the `@_generative` decorator (`sql/base.py`,
outside `src/`) copies the receiver, applies the method body to the copy,
and returns the copy, never mutating the receiver.  Query objects live in a
heap (a list indexed by reference); the copy is allocated at a fresh
reference. -/
def _generative (heap : List AppenderQuery) (r : Nat)
    (body : AppenderQuery → AppenderQuery) : List AppenderQuery × Nat :=
  match heap[r]? with
  | some q => (heap ++ [body q], heap.length)
  | none => (heap, r)

/-- Run one generative builder method on the query object at reference `r`. -/
def applyBuilder (op : BuilderOp) (heap : List AppenderQuery) (r : Nat) :
    List AppenderQuery × Nat :=
  _generative heap r (builderBody op)

/-- Relationship direction (`interfaces.ONETOMANY` etc.). -/
inductive Direction
  | ONETOMANY
  | MANYTOMANY
  | MANYTOONE
deriving DecidableEq, Repr

/-- Outcome of `DynaLoader.init_class_attribute`: an `InvalidRequestError`
raised before registration, or registration of the attribute, preceded by a
warning or not. -/
inductive InitClassAttributeResult
  | invalidRequestError
  | warnedAndRegistered
  | registered
deriving DecidableEq, Repr

/-- Source `DynaLoader.init_class_attribute`: raise `InvalidRequestError` when the
relationship is not collection-valued (`uselist=False`); merely warn when it
is collection-valued but its direction is neither one-to-many nor
many-to-many; in the non-raising cases, register the attribute
(`strategies._register_attribute`). -/
def DynaLoader.init_class_attribute (uselist : Bool) (direction : Direction) :
    InitClassAttributeResult :=
  if !uselist then InitClassAttributeResult.invalidRequestError
  else if direction ≠ Direction.ONETOMANY ∧ direction ≠ Direction.MANYTOMANY
  then InitClassAttributeResult.warnedAndRegistered
  else InitClassAttributeResult.registered

/-- A concrete attribute impl used by concrete-input theorems. -/
def testImpl : DynamicAttributeImpl :=
  { target_mapper := 0, order_by := [], secondary := none }

/-- A transient, never-mutated parent state. -/
def stTransient : ScState :=
  { committed := none, has_identity := false, session := none,
    persisted_rows := [], obj := 0 }

/-- A persisted parent state bound to a session, with empty pending map. -/
def stPersisted : ScState :=
  { committed := none, has_identity := true, session := some 0,
    persisted_rows := [some 1, some 2], obj := 0 }

/-- A previously persisted, now detached parent state. -/
def stDetached : ScState :=
  { committed := none, has_identity := true, session := none,
    persisted_rows := [], obj := 0 }

/-- The append events the spec predicts for `set(new_iterable)` against an
old membership `old`: one per `new` entry not already an `old` member, in
`new` order.  Compared below with what the code actually fires. -/
def specSetAppendEvents (old new : List V) : List Event :=
  (new.filter (fun m => decide (m ∉ old))).map Event.append

/-- The remove events the spec predicts for `set(new_iterable)`: one per
distinct `old` member not retained in `new`. -/
def specSetRemoveEvents (old new : List V) : List Event :=
  ((OIdSet.fromList old).filter (fun m => decide (m ∉ new))).map Event.remove

theorem OIdSet.mem_add {s : List V} {v x : V} :
    x ∈ OIdSet.add s v ↔ x ∈ s ∨ x = v := by
  unfold OIdSet.add
  by_cases h : v ∈ s
  · simp only [if_pos h]
    constructor
    · exact Or.inl
    · rintro (hx | rfl)
      · exact hx
      · exact h
  · simp [if_neg h]

theorem OIdSet.mem_remove {s : List V} {v x : V} :
    x ∈ OIdSet.remove s v ↔ x ∈ s ∧ x ≠ v := by
  simp [OIdSet.remove, List.mem_filter]

theorem OIdSet.mem_difference {s t : List V} {x : V} :
    x ∈ OIdSet.difference s t ↔ x ∈ s ∧ x ∉ t := by
  simp [OIdSet.difference, List.mem_filter]

theorem OIdSet.mem_intersection {s t : List V} {x : V} :
    x ∈ OIdSet.intersection s t ↔ x ∈ s ∧ x ∈ t := by
  simp [OIdSet.intersection, List.mem_filter]

theorem OIdSet.mem_union {s t : List V} {x : V} :
    x ∈ OIdSet.union s t ↔ x ∈ s ∨ x ∈ t := by
  simp only [OIdSet.union, List.mem_append, List.mem_filter,
    decide_eq_true_eq]
  by_cases h : x ∈ s
  · simp [h]
  · simp [h]

theorem OIdSet.nodup_add {s : List V} {v : V} (h : s.Nodup) :
    (OIdSet.add s v).Nodup := by
  unfold OIdSet.add
  by_cases hv : v ∈ s
  · simpa [if_pos hv] using h
  · simp only [if_neg hv]
    simpa [List.nodup_append] using ⟨h, hv⟩

theorem OIdSet.mem_foldl_add {l : List V} :
    ∀ {acc : List V} {x : V},
      x ∈ l.foldl OIdSet.add acc ↔ x ∈ acc ∨ x ∈ l := by
  induction l with
  | nil => simp
  | cons a t ih =>
      intro acc x
      simp only [List.foldl_cons, ih, OIdSet.mem_add, List.mem_cons]
      tauto

theorem OIdSet.mem_fromList {l : List V} {x : V} :
    x ∈ OIdSet.fromList l ↔ x ∈ l := by
  simp [OIdSet.fromList, OIdSet.mem_foldl_add]

theorem OIdSet.nodup_foldl_add {l : List V} :
    ∀ {acc : List V}, acc.Nodup → (l.foldl OIdSet.add acc).Nodup := by
  induction l with
  | nil => intro acc h; simpa using h
  | cons a t ih =>
      intro acc h
      exact ih (OIdSet.nodup_add h)

theorem OIdSet.nodup_fromList {l : List V} : (OIdSet.fromList l).Nodup :=
  OIdSet.nodup_foldl_add List.nodup_nil

theorem DynamicAttributeImpl.fire_append_event_snd (st : ScState) (v : V) :
    (DynamicAttributeImpl.fire_append_event st v).2 = [Event.append v] := rfl

theorem DynamicAttributeImpl.fire_remove_event_snd (st : ScState) (v : V) :
    (DynamicAttributeImpl.fire_remove_event st v).2 = [Event.remove v] := rfl

theorem setAppendLoop_snd (additions : List V) (l : List V) :
    ∀ (st : ScState) (acc : List Event),
      (l.foldl (DynamicAttributeImpl.setAppendStep additions) (st, acc)).2
      = acc ++ (l.filter (fun m => decide (m ∈ additions))).map Event.append := by
  induction l with
  | nil => intro st acc; simp
  | cons a t ih =>
      intro st acc
      by_cases h : a ∈ additions
      · rw [List.foldl_cons,
          show DynamicAttributeImpl.setAppendStep additions (st, acc) a
              = ((DynamicAttributeImpl.fire_append_event st a).1,
                  acc ++ [Event.append a]) by
            simp [DynamicAttributeImpl.setAppendStep, if_pos h,
              DynamicAttributeImpl.fire_append_event_snd],
          ih]
        simp [List.filter_cons, h]
      · rw [List.foldl_cons,
          show DynamicAttributeImpl.setAppendStep additions (st, acc) a
              = (st, acc) by
            simp [DynamicAttributeImpl.setAppendStep, if_neg h],
          ih]
        simp [List.filter_cons, h]

theorem setRemoveLoop_snd (l : List V) :
    ∀ (st : ScState) (acc : List Event),
      (l.foldl DynamicAttributeImpl.setRemoveStep (st, acc)).2
      = acc ++ l.map Event.remove := by
  induction l with
  | nil => intro st acc; simp
  | cons a t ih =>
      intro st acc
      rw [List.foldl_cons,
        show DynamicAttributeImpl.setRemoveStep (st, acc) a
            = ((DynamicAttributeImpl.fire_remove_event st a).1,
                acc ++ [Event.remove a]) by
          simp [DynamicAttributeImpl.setRemoveStep,
            DynamicAttributeImpl.fire_remove_event_snd],
        ih]
      simp

theorem Event.count_append_map_append (l : List V) (x : V) :
    ((l.map Event.append).count (Event.append x)) = l.count x := by
  induction l with
  | nil => rfl
  | cons a t ih => simp [List.count_cons, ih]

theorem Event.count_append_map_remove (l : List V) (x : V) :
    ((l.map Event.remove).count (Event.append x)) = 0 := by
  induction l with
  | nil => rfl
  | cons a t ih => simp [List.count_cons, ih]

theorem Event.count_remove_map_append (l : List V) (x : V) :
    ((l.map Event.append).count (Event.remove x)) = 0 := by
  induction l with
  | nil => rfl
  | cons a t ih => simp [List.count_cons, ih]

theorem Event.count_remove_map_remove (l : List V) (x : V) :
    ((l.map Event.remove).count (Event.remove x)) = l.count x := by
  induction l with
  | nil => rfl
  | cons a t ih => simp [List.count_cons, ih]

/-- C1: for every ChangeSet whose reconciling flag is true, `as_history()`
returns added = added_items − unchanged_items, deleted = deleted_items ∩
unchanged_items, and unchanged = unchanged_items − deleted, the set
operations taken by object identity (stated as the membership
characterization of each component). -/
theorem C1_as_history_reconciling (c : CollectionHistory)
    (hrec : c._reconcile_collection = true) (x : V) :
    (x ∈ c.as_history.added ↔ x ∈ c.added_items ∧ x ∉ c.unchanged_items) ∧
    (x ∈ c.as_history.deleted ↔ x ∈ c.deleted_items ∧ x ∈ c.unchanged_items) ∧
    (x ∈ c.as_history.unchanged ↔
      x ∈ c.unchanged_items ∧
        ¬(x ∈ c.deleted_items ∧ x ∈ c.unchanged_items)) := by
  simp only [CollectionHistory.as_history, hrec, if_true]
  exact ⟨OIdSet.mem_difference,
    OIdSet.mem_intersection,
    by
      rw [OIdSet.mem_difference]
      simp [OIdSet.mem_intersection]⟩

/-- C1 witness: the characterization evaluated at a concrete reconciling
ChangeSet and a concrete member. -/
theorem C1_as_history_reconciling_witness :
    (some 2 ∈ (CollectionHistory.mk [some 1, some 2] [some 2, some 4]
          [some 2, some 3] true).as_history.added
      ↔ some 2 ∈ [some 1, some 2] ∧ some 2 ∉ [some 2, some 3]) ∧
    (some 2 ∈ (CollectionHistory.mk [some 1, some 2] [some 2, some 4]
          [some 2, some 3] true).as_history.deleted
      ↔ some 2 ∈ [some 2, some 4] ∧ some 2 ∈ [some 2, some 3]) ∧
    (some 2 ∈ (CollectionHistory.mk [some 1, some 2] [some 2, some 4]
          [some 2, some 3] true).as_history.unchanged
      ↔ some 2 ∈ [some 2, some 3] ∧
          ¬(some 2 ∈ [some 2, some 4] ∧ some 2 ∈ [some 2, some 3])) :=
  C1_as_history_reconciling
    (CollectionHistory.mk [some 1, some 2] [some 2, some 4]
      [some 2, some 3] true) rfl (some 2)

/-- C2 counterexample: starting from a transient, never-mutated instance,
`fire_remove_event(x)` followed by `fire_append_event(x)` yields a
(non-reconciling) ChangeSet whose `as_history()` lists `x` in BOTH `added`
and `deleted`, so the claimed invariant fails for a reachable ChangeSet
whose reconciling flag is false. -/
theorem C2_added_deleted_disjoint_counterexample :
    some 0 ∈ (DynamicAttributeImpl._get_collection_history
        (DynamicAttributeImpl.fire_append_event
          (DynamicAttributeImpl.fire_remove_event stTransient (some 0)).1
          (some 0)).1
        PASSIVE_NO_INIT).1.as_history.added ∧
    some 0 ∈ (DynamicAttributeImpl._get_collection_history
        (DynamicAttributeImpl.fire_append_event
          (DynamicAttributeImpl.fire_remove_event stTransient (some 0)).1
          (some 0)).1
        PASSIVE_NO_INIT).1.as_history.deleted := by decide

/-- C2 amended: for every ChangeSet whose reconciling flag is true —
whatever its added/deleted/unchanged contents, hence after any sequence of
fire_append_event / fire_remove_event calls — the view produced by
`as_history()` places each item in at most one of added and deleted.  For
non-reconciling ChangeSets the invariant can fail (see the
counterexample). -/
theorem C2_added_deleted_disjoint_amended (c : CollectionHistory)
    (hrec : c._reconcile_collection = true) (x : V) :
    ¬(x ∈ c.as_history.added ∧ x ∈ c.as_history.deleted) := by
  simp only [CollectionHistory.as_history, hrec, if_true]
  rw [OIdSet.mem_difference, OIdSet.mem_intersection]
  tauto

/-- C2 witness: the amended disjointness evaluated at a concrete
reconciling ChangeSet. -/
theorem C2_added_deleted_disjoint_witness :
    ¬(some 2 ∈ (CollectionHistory.mk [some 1] [some 2] [some 2]
          true).as_history.added ∧
      some 2 ∈ (CollectionHistory.mk [some 1] [some 2] [some 2]
          true).as_history.deleted) :=
  C2_added_deleted_disjoint_amended
    (CollectionHistory.mk [some 1] [some 2] [some 2] true) rfl (some 2)

/-- C3 counterexample: a collection-valued relationship (`uselist=True`)
whose direction is many-to-one does NOT raise the configuration error — the
code only warns and registers the attribute anyway, so the claim that every
non-(one-to-many/many-to-many) relationship raises is false. -/
theorem C3_init_class_attribute_counterexample :
    DynaLoader.init_class_attribute true Direction.MANYTOONE
      ≠ InitClassAttributeResult.invalidRequestError ∧
    DynaLoader.init_class_attribute true Direction.MANYTOONE
      = InitClassAttributeResult.warnedAndRegistered := by decide

/-- C3 amended: registering the dynamic loader raises the configuration
error exactly when the relationship is not collection-valued
(`uselist=False`); a collection-valued relationship whose direction is
neither one-to-many nor many-to-many only emits a deprecation warning and
is registered anyway. -/
theorem C3_init_class_attribute_amended (uselist : Bool)
    (direction : Direction) :
    (DynaLoader.init_class_attribute uselist direction
        = InitClassAttributeResult.invalidRequestError ↔ uselist = false) ∧
    (DynaLoader.init_class_attribute uselist direction
        = InitClassAttributeResult.warnedAndRegistered
      ↔ uselist = true ∧ direction ≠ Direction.ONETOMANY ∧
          direction ≠ Direction.MANYTOMANY) := by
  cases uselist <;> cases direction <;> decide

/-- C5 counterexample: a passive (no-SQL) read via `get` of a never-mutated
attribute does NOT store a ChangeSet: the pending-change map entry is still
absent afterwards, so the "in particular" part of the claim is false on the
code (`_get_collection_history` builds a transient history without storing
it; only `_modified_event` stores). -/
theorem C5_lazy_creation_counterexample :
    ((DynamicAttributeImpl.get testImpl stTransient PASSIVE_NO_INIT).2).committed
      = none := rfl

/-- C5 amended: a ChangeSet is created and stored in the pending-change map
lazily at the first mutation of the attribute (here via
`fire_append_event`); a passive (no-SQL) read of the attribute constructs
only a transient ChangeSet and leaves the pending-change map exactly as it
was. -/
theorem C5_lazy_creation_amended (impl : DynamicAttributeImpl)
    (st : ScState) (v : V) (passive : Passive) (hpend : st.committed = none)
    (hp : passive.sql_ok = false) :
    (DynamicAttributeImpl.get impl st passive).2 = st ∧
    ((DynamicAttributeImpl.fire_append_event st v).1).committed
      = some (CollectionHistory.empty.add_added v) := by
  constructor
  · simp [DynamicAttributeImpl.get, hp,
      DynamicAttributeImpl._get_collection_history, PASSIVE_NO_INIT]
  · simp [DynamicAttributeImpl.fire_append_event,
      DynamicAttributeImpl._modified_event, hpend]

/-- C5 witness: the amended statement at a transient never-mutated state. -/
theorem C5_lazy_creation_witness :
    (DynamicAttributeImpl.get testImpl stTransient PASSIVE_NO_INIT).2
        = stTransient ∧
    ((DynamicAttributeImpl.fire_append_event stTransient (some 7)).1).committed
        = some (CollectionHistory.empty.add_added (some 7)) :=
  C5_lazy_creation_amended testImpl stTransient (some 7) PASSIVE_NO_INIT rfl rfl

/-- C6: for every instance-state and passive flag, `get` returns only the
ChangeSet's pending added items (the stored history's `added_items`, no
reconciliation) when the flag forbids SQL, and otherwise a fresh
`AppenderQuery` bound to this attribute and this instance, with the state
untouched in both cases. -/
theorem C6_get_passive_branches (impl : DynamicAttributeImpl)
    (st : ScState) (passive : Passive) :
    (passive.sql_ok = false →
      DynamicAttributeImpl.get impl st passive
        = (GetResult.collection
            ((st.committed.getD CollectionHistory.empty).added_items), st)) ∧
    (passive.sql_ok = true →
      DynamicAttributeImpl.get impl st passive
        = (GetResult.query (AppenderQuery.init impl st), st) ∧
      (AppenderQuery.init impl st).instance_obj = st.obj ∧
      (AppenderQuery.init impl st).attr = impl) := by
  constructor
  · intro h
    simp only [DynamicAttributeImpl.get, h, Bool.not_false, if_pos]
    simp only [DynamicAttributeImpl._get_collection_history, PASSIVE_NO_INIT,
      Bool.and_false, Bool.false_eq_true, if_false]
    cases st.committed <;> rfl
  · intro h
    exact ⟨by simp [DynamicAttributeImpl.get, h], rfl, rfl⟩

/-- C6 witness: both branches at concrete inputs. -/
theorem C6_get_passive_branches_witness :
    DynamicAttributeImpl.get testImpl stTransient PASSIVE_NO_INIT
        = (GetResult.collection [], stTransient) ∧
    DynamicAttributeImpl.get testImpl stTransient PASSIVE_OFF
        = (GetResult.query (AppenderQuery.init testImpl stTransient),
            stTransient) := by
  constructor
  · have h := (C6_get_passive_branches testImpl stTransient PASSIVE_NO_INIT).1
      rfl
    simpa [stTransient, CollectionHistory.empty] using h
  · exact ((C6_get_passive_branches testImpl stTransient PASSIVE_OFF).2 rfl).1

/-- C7: on a transient (no-identity) instance, `append(x)` then `remove(x)`
(default initiator) leaves `added_items` without `x` and leaves
`deleted_items` exactly as it was — in particular it never places `x` into
`deleted_items`. -/
theorem C7_append_then_remove (st : ScState) (x : V)
    (_htrans : st.has_identity = false) :
    x ∉ (((DynamicAttributeImpl.remove
            (DynamicAttributeImpl.append st x Initiator.noneI).1 x
            Initiator.noneI).1).committed.getD
          CollectionHistory.empty).added_items ∧
    (((DynamicAttributeImpl.remove
            (DynamicAttributeImpl.append st x Initiator.noneI).1 x
            Initiator.noneI).1).committed.getD
          CollectionHistory.empty).deleted_items
      = (st.committed.getD CollectionHistory.empty).deleted_items := by
  have hx : ∀ c : CollectionHistory, x ∈ (c.add_added x).added_items := by
    intro c
    rw [CollectionHistory.add_added, OIdSet.mem_add]
    exact Or.inr rfl
  cases hc : st.committed with
  | none =>
      constructor
      · simp only [DynamicAttributeImpl.append, DynamicAttributeImpl.remove,
          DynamicAttributeImpl.fire_append_event,
          DynamicAttributeImpl.fire_remove_event,
          DynamicAttributeImpl._modified_event, hc, reduceCtorEq, if_false,
          if_neg, CollectionHistory.add_removed, hx, if_pos, Option.getD_some]
        rw [OIdSet.mem_remove]
        simp
      · simp only [DynamicAttributeImpl.append, DynamicAttributeImpl.remove,
          DynamicAttributeImpl.fire_append_event,
          DynamicAttributeImpl.fire_remove_event,
          DynamicAttributeImpl._modified_event, hc, reduceCtorEq, if_false,
          if_neg, CollectionHistory.add_removed, hx, if_pos, Option.getD_some]
        rfl
  | some c =>
      constructor
      · simp only [DynamicAttributeImpl.append, DynamicAttributeImpl.remove,
          DynamicAttributeImpl.fire_append_event,
          DynamicAttributeImpl.fire_remove_event,
          DynamicAttributeImpl._modified_event, hc, reduceCtorEq, if_false,
          if_neg, CollectionHistory.add_removed, hx, if_pos, Option.getD_some]
        rw [OIdSet.mem_remove]
        simp
      · simp only [DynamicAttributeImpl.append, DynamicAttributeImpl.remove,
          DynamicAttributeImpl.fire_append_event,
          DynamicAttributeImpl.fire_remove_event,
          DynamicAttributeImpl._modified_event, hc, reduceCtorEq, if_false,
          if_neg, CollectionHistory.add_removed, hx, if_pos, Option.getD_some]
        rfl

/-- C7 witness: the idempotence at a concrete transient state and item. -/
theorem C7_append_then_remove_witness :
    some 5 ∉ (((DynamicAttributeImpl.remove
            (DynamicAttributeImpl.append stTransient (some 5)
              Initiator.noneI).1 (some 5)
            Initiator.noneI).1).committed.getD
          CollectionHistory.empty).added_items ∧
    (((DynamicAttributeImpl.remove
            (DynamicAttributeImpl.append stTransient (some 5)
              Initiator.noneI).1 (some 5)
            Initiator.noneI).1).committed.getD
          CollectionHistory.empty).deleted_items
      = (stTransient.committed.getD CollectionHistory.empty).deleted_items :=
  C7_append_then_remove stTransient (some 5) rfl

/-- C8: a previously persisted instance that is now detached (has an
identity but no session) with an empty pending-change map raises the
detached-instance error on `all()` and on iteration (both go through
`_iter`). -/
theorem C8_detached_read (st : ScState) (hid : st.has_identity = true)
    (hsess : st.session = none) (_hpend : st.committed = none) :
    AppenderQuery._iter st = Except.error DynError.detachedInstance ∧
    AppenderQuery.all st = Except.error DynError.detachedInstance := by
  have hsp : AppenderQuery.sessionProp st = none := by
    simp [AppenderQuery.sessionProp, hid, hsess]
  have hd : st.detached = true := by
    simp [ScState.detached, hid, hsess]
  constructor <;>
    simp [AppenderQuery.all, AppenderQuery._iter, hsp, hd]

/-- C8 witness: the detached-instance error at a concrete detached state. -/
theorem C8_detached_read_witness :
    AppenderQuery._iter stDetached
        = Except.error DynError.detachedInstance ∧
    AppenderQuery.all stDetached
        = Except.error DynError.detachedInstance :=
  C8_detached_read stDetached rfl rfl rfl

/-- C10 counterexample: invoking the `pop` method with value `None` on a
never-mutated instance-state is NOT a no-op: it delegates to `remove`,
which fires one remove event carrying `None` and stores a ChangeSet whose
`deleted_items` now holds `None`. -/
theorem C10_pop_none_counterexample :
    DynamicAttributeImpl.pop stTransient none Initiator.noneI
      = (ScState.mk (some (CollectionHistory.mk [] [none] [] false))
            false none [] 0,
          [Event.remove none]) := rfl

/-- C10 amended: the documented no-op short-circuit for popping a `None`
value lives in `set` (`set(..., value=None, pop=True)`): for every
instance-state and initiator it fires no append or remove events and
returns the state — hence the ChangeSet — unchanged.  The `pop` method
itself delegates to `remove` unconditionally (see the counterexample). -/
theorem C10_set_pop_none_noop (st : ScState) (initiator : Initiator) :
    DynamicAttributeImpl.set st none initiator true
      = Except.ok (st, []) := by
  cases initiator <;> simp [DynamicAttributeImpl.set]

/-- C9: every generative builder method (where, filter, filter_by, order_by,
join, outerjoin, limit, offset, slice, autoflush) allocates a new query
object carrying the requested mutation and leaves the receiver unchanged:
the heap entry at the receiver's reference is exactly as before the call,
and the returned reference is a fresh one. -/
theorem C9_generative_independence (op : BuilderOp)
    (heap : List AppenderQuery) (r : Nat) (hr : r < heap.length) :
    ((applyBuilder op heap r).1)[r]? = heap[r]? ∧
    (applyBuilder op heap r).2 = heap.length ∧
    (applyBuilder op heap r).2 ≠ r ∧
    ((applyBuilder op heap r).1)[(applyBuilder op heap r).2]?
      = (heap[r]?).map (builderBody op) := by
  have hq : heap[r]? = some (heap.get ⟨r, hr⟩) := by
    simp [List.getElem?_eq_getElem hr]
  unfold applyBuilder _generative
  rw [hq]
  refine ⟨?_, rfl, ne_of_gt hr, ?_⟩
  · rw [List.getElem?_append_left hr, hq]
  · rw [List.getElem?_concat_length]
    rfl

/-- C9 witness: `where` on a singleton heap holding a freshly built query. -/
theorem C9_generative_independence_witness :
    ((applyBuilder (BuilderOp.whereOp [Crit.user 5])
        [AppenderQuery.init testImpl stTransient] 0).1)[0]?
      = [AppenderQuery.init testImpl stTransient][0]? ∧
    (applyBuilder (BuilderOp.whereOp [Crit.user 5])
        [AppenderQuery.init testImpl stTransient] 0).2
      = [AppenderQuery.init testImpl stTransient].length ∧
    (applyBuilder (BuilderOp.whereOp [Crit.user 5])
        [AppenderQuery.init testImpl stTransient] 0).2 ≠ 0 ∧
    ((applyBuilder (BuilderOp.whereOp [Crit.user 5])
        [AppenderQuery.init testImpl stTransient] 0).1)[(applyBuilder
          (BuilderOp.whereOp [Crit.user 5])
          [AppenderQuery.init testImpl stTransient] 0).2]?
      = ([AppenderQuery.init testImpl stTransient][0]?).map
          (builderBody (BuilderOp.whereOp [Crit.user 5])) :=
  C9_generative_independence (BuilderOp.whereOp [Crit.user 5])
    [AppenderQuery.init testImpl stTransient] 0 (by decide)

theorem OIdSet.union_nil (s : List V) : OIdSet.union s [] = s := by
  simp [OIdSet.union]

theorem setAdditionsFilter (old new : List V) :
    new.filter (fun m => decide (m ∈ OIdSet.difference (OIdSet.fromList new)
        (OIdSet.intersection (OIdSet.fromList old) new)))
      = new.filter (fun m => decide (m ∉ old)) := by
  apply List.filter_congr
  intro m hm
  apply decide_eq_decide.mpr
  simp [OIdSet.mem_difference, OIdSet.mem_intersection, OIdSet.mem_fromList,
    hm]

theorem setRemovalsFilter (old new : List V) :
    OIdSet.difference (OIdSet.fromList old)
        (OIdSet.intersection (OIdSet.fromList old) new)
      = (OIdSet.fromList old).filter (fun m => decide (m ∉ new)) := by
  unfold OIdSet.difference
  apply List.filter_congr
  intro m hm
  apply decide_eq_decide.mpr
  simp [OIdSet.mem_intersection, hm]

theorem set_persisted_empty_events (st : ScState) (new_values : List V)
    (s : Nat) (hid : st.has_identity = true) (hsess : st.session = some s)
    (hpend : st.committed = none) :
    (DynamicAttributeImpl.set st (some new_values) Initiator.noneI
        false).map Prod.snd
      = Except.ok (specSetAppendEvents st.persisted_rows new_values
          ++ specSetRemoveEvents st.persisted_rows new_values) := by
  have hiter : AppenderQuery._iter st = Except.ok st.persisted_rows := by
    simp [AppenderQuery._iter, AppenderQuery.sessionProp, hid, hsess]
  have hme : DynamicAttributeImpl._modified_event st
      = (CollectionHistory.empty,
          { st with committed := some CollectionHistory.empty }) := by
    simp [DynamicAttributeImpl._modified_event, hpend]
  simp only [DynamicAttributeImpl.set, reduceCtorEq, if_false,
    Bool.false_and, Option.isNone_some, Bool.and_false, hid, if_true,
    hiter, Except.map, hme]
  simp only [CollectionHistory.empty, Bool.not_true, Bool.false_eq_true,
    if_false, OIdSet.union_nil, setAppendLoop_snd, setRemoveLoop_snd,
    List.nil_append]
  rw [setAdditionsFilter, setRemovalsFilter]
  rfl

theorem V_count_eq_one_of_mem {l : List V} {x : V} (d : l.Nodup)
    (h : x ∈ l) : l.count x = 1 := by
  induction l with
  | nil => cases h
  | cons a t ih =>
      rw [List.count_cons]
      rcases List.mem_cons.mp h with rfl | ht
      · have hnx : x ∉ t := (List.nodup_cons.mp d).1
        have : t.count x = 0 := by
          rw [List.count_eq_zero]
          exact hnx
        simp [this]
      · have hax : ¬(a == x) = true := by
          intro hb
          have : a = x := by simpa using hb
          subst this
          exact (List.nodup_cons.mp d).1 ht
        rw [ih (List.nodup_cons.mp d).2 ht]
        simp [hax]

/-- C4 counterexample: `set` with a duplicated new member fires TWO append
events for that member (`set stPersisted [some 3, some 3]` appends
`some 3` twice), so "exactly one append event" fails when `new_iterable`
repeats a member. -/
theorem C4_set_events_counterexample :
    (DynamicAttributeImpl.set stPersisted (some [some 3, some 3])
        Initiator.noneI false).map
      (fun p => p.2.count (Event.append (some 3))) = Except.ok 2 := rfl

/-- C4 amended: for `set(new_iterable)` on a persisted instance (bound to a
session) whose pending state is empty, where `new_iterable` contains no
member twice: members present in both old and new receive no append and no
remove event; each member only in new receives exactly one append event,
the append events following `new_iterable` order; each member only in old
receives exactly one remove event.  (Without the no-duplicate proviso the
code fires one append per occurrence, see the counterexample.) -/
theorem C4_set_diff_and_sync (st : ScState) (new_values : List V) (s : Nat)
    (hid : st.has_identity = true) (hsess : st.session = some s)
    (hpend : st.committed = none) (hnd : new_values.Nodup) :
    (DynamicAttributeImpl.set st (some new_values) Initiator.noneI
        false).map Prod.snd
      = Except.ok (specSetAppendEvents st.persisted_rows new_values
          ++ specSetRemoveEvents st.persisted_rows new_values) ∧
    (∀ x, x ∈ st.persisted_rows → x ∈ new_values →
      Event.append x ∉ specSetAppendEvents st.persisted_rows new_values
          ++ specSetRemoveEvents st.persisted_rows new_values ∧
      Event.remove x ∉ specSetAppendEvents st.persisted_rows new_values
          ++ specSetRemoveEvents st.persisted_rows new_values) ∧
    (∀ x, x ∈ new_values → x ∉ st.persisted_rows →
      (specSetAppendEvents st.persisted_rows new_values
          ++ specSetRemoveEvents st.persisted_rows new_values).count
          (Event.append x) = 1) ∧
    (∀ x, x ∈ st.persisted_rows → x ∉ new_values →
      (specSetAppendEvents st.persisted_rows new_values
          ++ specSetRemoveEvents st.persisted_rows new_values).count
          (Event.remove x) = 1) := by
  refine ⟨set_persisted_empty_events st new_values s hid hsess hpend,
    ?_, ?_, ?_⟩
  · intro x hxo hxn
    constructor
    · simp [specSetAppendEvents, specSetRemoveEvents, List.mem_append,
        List.mem_map, List.mem_filter, hxo]
    · simp [specSetAppendEvents, specSetRemoveEvents, List.mem_append,
        List.mem_map, List.mem_filter, OIdSet.mem_fromList, hxn]
  · intro x hxn hxo
    rw [specSetAppendEvents, specSetRemoveEvents, List.count_append,
      Event.count_append_map_append, Event.count_append_map_remove,
      Nat.add_zero]
    refine V_count_eq_one_of_mem (hnd.filter _) ?_
    simp [List.mem_filter, hxn, hxo]
  · intro x hxo hxn
    rw [specSetAppendEvents, specSetRemoveEvents, List.count_append,
      Event.count_remove_map_append, Event.count_remove_map_remove,
      Nat.zero_add]
    refine V_count_eq_one_of_mem (OIdSet.nodup_fromList.filter _) ?_
    simp [List.mem_filter, OIdSet.mem_fromList, hxo, hxn]

/-- C4 witness: the amended statement at a concrete persisted state with
old membership `[some 1, some 2]` and new iterable `[some 2, some 3]`. -/
theorem C4_set_diff_and_sync_witness :
    (DynamicAttributeImpl.set stPersisted (some [some 2, some 3])
        Initiator.noneI false).map Prod.snd
      = Except.ok (specSetAppendEvents [some 1, some 2] [some 2, some 3]
          ++ specSetRemoveEvents [some 1, some 2] [some 2, some 3]) ∧
    (specSetAppendEvents [some 1, some 2] [some 2, some 3]
        ++ specSetRemoveEvents [some 1, some 2] [some 2, some 3]).count
        (Event.append (some 3)) = 1 ∧
    (specSetAppendEvents [some 1, some 2] [some 2, some 3]
        ++ specSetRemoveEvents [some 1, some 2] [some 2, some 3]).count
        (Event.remove (some 1)) = 1 :=
  ⟨(C4_set_diff_and_sync stPersisted [some 2, some 3] 0 rfl rfl rfl
      (by decide)).1,
    (C4_set_diff_and_sync stPersisted [some 2, some 3] 0 rfl rfl rfl
      (by decide)).2.2.1 (some 3) (by decide) (by decide),
    (C4_set_diff_and_sync stPersisted [some 2, some 3] 0 rfl rfl rfl
      (by decide)).2.2.2 (some 1) (by decide) (by decide)⟩
